import Mathlib

/-!
Shallow embedding of the reference-kbs key broker service (Rust).

The model covers:
* `src/sev.rs` — the SEV attester state machine (`SevAttester::new`,
  `challenge`, `attest`, `encrypt_secret`);
* `src/lib.rs` — `Session` (`new`/`is_valid`/`approve`) and the three
  request handlers `auth`, `attest`, `key`, run against a registry of
  sessions keyed by the `session_id` cookie;
* `src/secrets_store.rs` — `SecretStore::validate`, `register_secret_store`,
  `get_secret_store`.

Conventions of the embedding:
* Types owned by the external `sev` crate (certificate chains, SEV launch
  sessions, start blobs, measurements, secret packets) are opaque tokens
  carrying a `Nat` tag; the outcomes of the crate's fallible operations
  (`Session::try_from`, `start`, `measure`, `verify_with_digest`, `secret`)
  are supplied per call by explicit oracle records, mirroring the
  `Result` types at each call site in `src/sev.rs`.
* Rust panics (an `unwrap()` on `Err`/invalid data, or the `usize`
  underflow in `512 - plain_secret.len()`) are modelled by an explicit
  `panic` constructor in the outcome type of the operation.
* JSON values are kept structural: `Challenge.extra_params` is the
  `SevChallenge` record itself rather than its serialized string
  (`serde_json::to_string` of that record cannot fail).
* `Instant::now()` is an explicit `now : Nat` argument carried by each
  request event; `hex::decode` is implemented concretely below.
-/

/-- Error type of the `Attester` trait (declared in `src/attester.rs`);
the constructors are the variants constructed in `src/sev.rs`.  Payloads
of the Rust variants (underlying library errors) are dropped. -/
inductive AttesterError
  | SevPolicy
  | SevMissingChain
  | SevSession
  | SevChallengeJson
  | InvalidAttestation
  | SevMissingSession
  | SevSessionMeasure
  | InvalidMeasurement
  | SevSecret
  | SevSecretTooLong
  | SevMissingVerified
  deriving DecidableEq, Repr

/-- Opaque token for `sev::Build`. -/
structure Build where
  val : Nat
  deriving DecidableEq, Repr

/-- Opaque token for `sev::certs::Chain`. -/
structure Chain where
  val : Nat
  deriving DecidableEq, Repr

/-- Opaque token for the SEV `Start` blob returned by `session.start(chain)`. -/
structure StartBlob where
  val : Nat
  deriving DecidableEq, Repr

/-- Opaque token for `sev::session::Session<Initialized>`. -/
structure InitSession where
  val : Nat
  deriving DecidableEq, Repr

/-- Opaque token for `sev::session::Session<Measuring>` (result of `measure()`). -/
structure MeasSession where
  val : Nat
  deriving DecidableEq, Repr

/-- Opaque token for `sev::session::Session<Verified>`. -/
structure VerifiedSession where
  val : Nat
  deriving DecidableEq, Repr

/-- Opaque token for the parsed `sev::launch::sev::Measurement` evidence. -/
structure SevMeasurement where
  val : Nat
  deriving DecidableEq, Repr

/-- Opaque token for the SEV secret packet returned by `session.secret(...)`. -/
structure SecretPacket where
  val : Nat
  deriving DecidableEq, Repr

/-- `hex` crate: value of one hex digit, `none` on a non-hex character. -/
def hexDigit (c : Char) : Option Nat :=
  if '0' ≤ c ∧ c ≤ '9' then some (c.toNat - '0'.toNat)
  else if 'a' ≤ c ∧ c ≤ 'f' then some (c.toNat - 'a'.toNat + 10)
  else if 'A' ≤ c ∧ c ≤ 'F' then some (c.toNat - 'A'.toNat + 10)
  else none

/-- `hex::decode` on the character list: bytes from consecutive digit
pairs; fails on odd length or a non-hex character. -/
def hexDecodeChars : List Char → Option (List Nat)
  | [] => some []
  | [_] => none
  | c1 :: c2 :: rest =>
    match hexDigit c1, hexDigit c2, hexDecodeChars rest with
    | some h, some l, some tail => some ((16 * h + l) :: tail)
    | _, _, _ => none

/-- `hex::decode` on a string. -/
def hexDecode (s : String) : Option (List Nat) :=
  hexDecodeChars s.data

/-- The SEV attester state (`struct SevAttester`, src/sev.rs:11-18).
`workload_id` models the unused `_workload_id` field. -/
structure SevAttester where
  workload_id : String
  nonce : String
  build : Build
  chain : Option Chain
  session : Option InitSession
  session_verified : Option VerifiedSession
  deriving DecidableEq, Repr

/-- `SevAttester::new` (src/sev.rs:21-30).  Parameter order as declared:
`(workload_id, nonce, build, chain)`. -/
def SevAttester.new (workload_id : String) (nonce : String) (build : Build)
    (chain : Chain) : SevAttester :=
  { workload_id := workload_id
    nonce := nonce
    build := build
    chain := some chain
    session := none
    session_verified := none }

/-- `kbs_types::SevChallenge { id, start }`, kept structural. -/
structure SevChallenge where
  id : String
  start : StartBlob
  deriving DecidableEq, Repr

/-- `kbs_types::Challenge`; `extra_params` is the `SevChallenge` that the
Rust code JSON-serializes into the `extra_params` string. -/
structure Challenge where
  nonce : String
  extra_params : SevChallenge
  deriving DecidableEq, Repr

/-- Per-call outcomes of the external `sev` crate operations used by
`SevAttester::challenge`: `tryFrom` is `session::Session::try_from(policy)`
and `start` is `session.start(chain)`; `none` models the `Err` case. -/
structure ChallengeOracle where
  tryFrom : Option InitSession
  start : Option StartBlob
  deriving DecidableEq, Repr

/-- Result of `SevAttester::challenge`, paired with the post-call attester
state (the Rust method mutates `&mut self`). -/
inductive ChallengeResult
  | ok (c : Challenge) (a' : SevAttester)
  | er (e : AttesterError) (a' : SevAttester)
  deriving DecidableEq, Repr

/-- `SevAttester::challenge` (src/sev.rs:34-54).  Note `self.chain.take()`
clears the chain slot even when the subsequent `start` call fails. -/
def SevAttester.challenge (a : SevAttester) (o : ChallengeOracle) : ChallengeResult :=
  match o.tryFrom with
  | none => .er .SevPolicy a
  | some sess =>
    match a.chain with
    | none => .er .SevMissingChain { a with chain := none }
    | some _chain =>
      match o.start with
      | none => .er .SevSession { a with chain := none }
      | some st =>
        .ok { nonce := a.nonce, extra_params := { id := a.nonce, start := st } }
          { a with chain := none, session := some sess }

/-- `kbs_types::Attestation`; `tee_evidence` holds the result of
`serde_json::from_str::<Measurement>` on the evidence string (`none`
models a JSON parse failure). -/
structure Attestation where
  tee_evidence : Option SevMeasurement
  deriving DecidableEq, Repr

/-- Per-call outcomes of the external `sev` crate operations used by
`SevAttester::attest`: `measure` is `session.measure()` and `verify` is
`session.verify_with_digest(build, measurement, digest)`. -/
structure AttestOracle where
  measure : Option MeasSession
  verify : Option VerifiedSession
  deriving DecidableEq, Repr

/-- Result of `SevAttester::attest`; `panic` models the
`hex::decode(launch_measurement).unwrap()` panic (src/sev.rs:73). -/
inductive AttestResult
  | ok (a' : SevAttester)
  | er (e : AttesterError) (a' : SevAttester)
  | panic
  deriving DecidableEq, Repr

/-- `SevAttester::attest` (src/sev.rs:56-85).  `self.session.take()`
consumes the initialized session before `measure`, so every failure from
`measure` onwards leaves `session = none`. -/
def SevAttester.attest (a : SevAttester) (att : Attestation)
    (launch_measurement : String) (o : AttestOracle) : AttestResult :=
  match att.tee_evidence with
  | none => .er .InvalidAttestation a
  | some _measurement =>
    match a.session with
    | none => .er .SevMissingSession a
    | some _sess =>
      let a1 : SevAttester := { a with session := none }
      match o.measure with
      | none => .er .SevSessionMeasure a1
      | some _m =>
        match hexDecode launch_measurement with
        | none => .panic
        | some _decoded_lm =>
          match o.verify with
          | none => .er .InvalidMeasurement a1
          | some vs => .ok { a1 with session_verified := some vs }

/-- Per-call outcome of `session.secret(HeaderFlags::default(), &data)`;
the function argument receives the exact byte vector the Rust code hands
to the `sev` crate. -/
structure EncryptOracle where
  secret : List Nat → Option SecretPacket

/-- Result of `SevAttester::encrypt_secret`.  `ok` also records the byte
vector that was passed to `session.secret`; `panic` models the `usize`
underflow in `vec![0; 512 - plain_secret.len()]` when the plaintext is
longer than 512 bytes (src/sev.rs:92). -/
inductive EncryptResult
  | ok (data : List Nat) (v : SecretPacket)
  | er (e : AttesterError)
  | panic
  deriving DecidableEq, Repr

/-- `SevAttester::encrypt_secret` (src/sev.rs:87-102).  Takes `&self`:
no state change. -/
def SevAttester.encrypt_secret (a : SevAttester) (o : EncryptOracle)
    (plain_secret : List Nat) : EncryptResult :=
  match a.session_verified with
  | none => .er .SevMissingVerified
  | some _sess =>
    if plain_secret.length > 4096 then .er .SevSecretTooLong
    else if plain_secret.length > 512 then .panic
    else
      let data := plain_secret ++ List.replicate (512 - plain_secret.length) 0
      match o.secret data with
      | none => .er .SevSecret
      | some s => .ok data s

/-- `enum SessionStatus` (src/lib.rs:44-48). -/
inductive SessionStatus
  | Authorized
  | Unauthorized
  deriving DecidableEq, Repr

/-- `struct Session` (src/lib.rs:50-56).  `expires_on` is an instant in
the model's abstract clock (`Nat`). -/
structure Session where
  id : String
  workload_id : String
  attester : SevAttester
  status : SessionStatus
  expires_on : Nat
  deriving DecidableEq, Repr

/-- `Session::new` (src/lib.rs:62-70): status `Unauthorized`, expiry
`now + 3 * 60 * 60` seconds. -/
def Session.new (id : String) (workload_id : String) (attester : SevAttester)
    (now : Nat) : Session :=
  { id := id
    workload_id := workload_id
    attester := attester
    status := .Unauthorized
    expires_on := now + 3 * 60 * 60 }

/-- `Session::is_valid` (src/lib.rs:84-92): authorized and not yet expired
(the `println!` diagnostics are dropped). -/
def Session.is_valid (s : Session) (now : Nat) : Bool :=
  s.status = SessionStatus.Authorized ∧ now < s.expires_on

/-- `Session::approve` (src/lib.rs:94-96). -/
def Session.approve (s : Session) : Session :=
  { s with status := .Authorized }

/-- The session registry (`SessionState.sessions`, src/lib.rs:99-101):
a map `session_id → Session`, modelled as an association list where the
first binding for a key is the visible one. -/
structure SysState where
  sessions : List (String × Session)
  deriving Repr

/-- `HashMap::get` on the registry. -/
def slookup : List (String × Session) → String → Option Session
  | [], _ => none
  | (k, v) :: rest, sid => if k = sid then some v else slookup rest sid

/-- `HashMap::insert` on the registry (the new binding shadows any old
one for the same key). -/
def SysState.insert (st : SysState) (sid : String) (s : Session) : SysState :=
  { sessions := (sid, s) :: st.sessions }

/-- In-place mutation of one session through its `Arc<Mutex<Session>>`:
replaces the visible (first) binding of `sid`. -/
def supdate : List (String × Session) → String → Session → List (String × Session)
  | [], _, _ => []
  | (k, v) :: rest, sid, s =>
    if k = sid then (k, s) :: rest else (k, v) :: supdate rest sid s

/-- One `POST /auth` request (src/lib.rs:141-191): the freshly generated
UUID, the request body fields, the parse result of `extra_params` as a
`SevRequest`, the DB `tee_config` lookup result, the challenge oracle and
the current time. -/
structure AuthEvent where
  session_id : String
  workload_id : String
  tee_is_sev : Bool
  sev_request : Option (Build × Chain)
  tee_config : Option String
  oracle : ChallengeOracle
  now : Nat

/-- One `POST /attest` request (src/lib.rs:193-231): cookie, parsed body,
DB measurement lookup result for the session's workload, attest oracle,
current time. -/
structure AttestEvent where
  cookie : Option String
  attestation : Attestation
  measurement_lookup : Option String
  oracle : AttestOracle
  now : Nat

/-- One `GET /key/<key_id>` request (src/lib.rs:233-272): cookie, secret
bytes fetched for `key_id` (`none` models a store error), encrypt oracle,
current time. -/
structure KeyEvent where
  cookie : Option String
  secret_fetch : Option (List Nat)
  oracle : EncryptOracle
  now : Nat

/-- A handler invocation. -/
inductive Event
  | auth (e : AuthEvent)
  | attest (e : AttestEvent)
  | key (e : KeyEvent)

/-- Wire-level outcome of one handler invocation.  `authOk` carries the
challenge body and the `session_id` cookie set on the response; `panic`
models a handler panic (Rust `unwrap()` on an `Err`). -/
inductive Outcome
  | authOk (c : Challenge) (cookie : String)
  | attestOk
  | keyOk (v : SecretPacket)
  | badRequest (msg : String)
  | unauthorized (msg : String)
  | panic
  deriving DecidableEq, Repr

/-- The `auth` handler (src/lib.rs:141-191).  The attester is built with
`SevAttester::new(session_id.clone(), request.workload_id.clone(), ...)`
(src/lib.rs:167-173, likewise src/main.rs:67-72), whose declared
parameters are `(workload_id, nonce, ...)` (src/sev.rs:21): positionally
the generated `session_id` lands in the unused `_workload_id` field and
the client's `workload_id` becomes the nonce.  (`lib.rs` also passes a
fifth `tee_config` argument that the constructor in `src/sev.rs` does not
declare; it is dropped here, as in the 4-argument call in `main.rs`.) -/
def authStep (st : SysState) (e : AuthEvent) : Outcome × SysState :=
  if ¬ e.tee_is_sev then (.badRequest "Unsupported TEE", st)
  else
    match e.sev_request with
    | none => (.badRequest "SevRequest parse error", st)
    | some (build, chain) =>
      let attester := SevAttester.new e.session_id e.workload_id build chain
      match attester.challenge e.oracle with
      | .er _ _ => (.badRequest "challenge error", st)
      | .ok c attester' =>
        let session := Session.new e.session_id e.workload_id attester' e.now
        (.authOk c session.id, st.insert session.id session)

/-- The `attest` handler (src/lib.rs:193-231).  Resolves the session by
cookie, looks up the expected launch measurement, drives
`attester.attest` under the session lock, and calls `session.approve()`
only after the attester returned `Ok`.  Note: no expiry or validity check
is performed here. -/
def attestStep (st : SysState) (e : AttestEvent) : Outcome × SysState :=
  match e.cookie with
  | none => (.badRequest "Missing cookie", st)
  | some sid =>
    match slookup st.sessions sid with
    | none => (.badRequest "Invalid cookie", st)
    | some s =>
      match e.measurement_lookup with
      | none => (.badRequest "measurement lookup error", st)
      | some lm =>
        match s.attester.attest e.attestation lm e.oracle with
        | .panic => (.panic, st)
        | .er _ a' =>
          (.badRequest "attest error",
            { sessions := supdate st.sessions sid { s with attester := a' } })
        | .ok a' =>
          (.attestOk,
            { sessions :=
                supdate st.sessions sid (Session.approve { s with attester := a' }) })

/-- The `key` handler (src/lib.rs:233-272).  After `is_valid` and the
secret fetch, the code calls `.unwrap()` on `encrypt_secret`
(src/lib.rs:266-270, likewise src/main.rs:156-160), so a backend error
there is a panic, not a 401. -/
def keyStep (st : SysState) (e : KeyEvent) : Outcome × SysState :=
  match e.cookie with
  | none => (.unauthorized "Missing cookie", st)
  | some sid =>
    match slookup st.sessions sid with
    | none => (.unauthorized "Invalid cookie", st)
    | some s =>
      if ¬ s.is_valid e.now then (.unauthorized "Invalid session", st)
      else
        match e.secret_fetch with
        | none => (.unauthorized "secret lookup error", st)
        | some bytes =>
          match s.attester.encrypt_secret e.oracle bytes with
          | .er _ => (.panic, st)
          | .panic => (.panic, st)
          | .ok _ v => (.keyOk v, st)

/-- Dispatch one request. -/
def step (st : SysState) : Event → Outcome × SysState
  | .auth e => authStep st e
  | .attest e => attestStep st e
  | .key e => keyStep st e

/-- Run a sequence of requests from a state. -/
def run (st : SysState) : List Event → SysState
  | [] => st
  | e :: tr => run (step st e).2 tr

/-- The registry at service start (src/main.rs:172-174). -/
def initState : SysState := { sessions := [] }

/-- An attester on which `challenge()` has returned `Ok` at some point of
its history, possibly followed by further `attest` calls
(`encrypt_secret` takes `&self` and cannot change the state). -/
inductive Challenged : SevAttester → Prop
  | ofChallenge {a : SevAttester} {o : ChallengeOracle} {c : Challenge}
      {a' : SevAttester} (h : a.challenge o = .ok c a') : Challenged a'
  | ofAttestOk {a : SevAttester} {att : Attestation} {lm : String} {o : AttestOracle}
      {a' : SevAttester} (hc : Challenged a) (h : a.attest att lm o = .ok a') :
      Challenged a'
  | ofAttestEr {a : SevAttester} {att : Attestation} {lm : String} {o : AttestOracle}
      {e : AttesterError} {a' : SevAttester} (hc : Challenged a)
      (h : a.attest att lm o = .er e a') : Challenged a'

/-- `ev` is an `attest` request for cookie `sid` on which the handler,
run in state `st`, returns success. -/
def AttestOkAt (st : SysState) (ev : Event) (sid : String) : Prop :=
  ∃ ae, ev = Event.attest ae ∧ ae.cookie = some sid ∧
    (attestStep st ae).1 = Outcome.attestOk

/-! ### The secret-store admin endpoints (src/secrets_store.rs) -/

/-- `struct SecretStore` (src/secrets_store.rs:29-34). -/
structure SecretStore where
  url : String
  token : String
  deriving DecidableEq, Repr

/-- `SecretStore::validate` (src/secrets_store.rs:83-93): the `token` is
checked first, then the `url`; the `Err` payload is the reason string of
the `InvalidSecretStoreError`. -/
def SecretStore.validate (s : SecretStore) : Except String Unit :=
  if s.token = "" then .error "token cannot be empty"
  else if s.url = "" then .error "url cannot be empty"
  else .ok ()

/-- Body of the `POST /secret-store/update` response. -/
inductive RegisterOutcome
  | updated
  | errorReason (reason : String)
  deriving DecidableEq, Repr

/-- `register_secret_store` (src/secrets_store.rs:110-122) together with
the `write_secret_store` effect on the process-wide `SECRET_STORE`:
given the posted store and the currently stored one, returns the
response body and the stored value afterwards. -/
def register_secret_store (store : SecretStore) (current : SecretStore) :
    RegisterOutcome × SecretStore :=
  match store.validate with
  | .ok _ => (.updated, store)
  | .error e => (.errorReason e, current)

/-- `get_secret_store`, i.e. `read_secret_store`
(src/secrets_store.rs:100-108): returns
`SecretStore::new(&store.url, &store.token)` of the stored value. -/
def get_secret_store (current : SecretStore) : SecretStore :=
  { url := current.url, token := current.token }

/-- Concrete `auth` request of the C2 witness trace. -/
def c2Auth : AuthEvent :=
  { session_id := "s1", workload_id := "w1", tee_is_sev := true,
    sev_request := some (⟨0⟩, ⟨3⟩), tee_config := none,
    oracle := { tryFrom := some ⟨1⟩, start := some ⟨2⟩ }, now := 0 }

/-- Concrete `attest` request of the C2 witness trace. -/
def c2Att : AttestEvent :=
  { cookie := some "s1", attestation := ⟨some ⟨5⟩⟩,
    measurement_lookup := some "00",
    oracle := { measure := some ⟨6⟩, verify := some ⟨7⟩ }, now := 1 }

/-- Concrete `key` request of the C2 witness trace. -/
def c2Key : KeyEvent :=
  { cookie := some "s1", secret_fetch := some [1, 2],
    oracle := ⟨fun _ => some ⟨9⟩⟩, now := 2 }

/-- The authorized, unexpired session of the C5 failing input. -/
def c5Session : Session :=
  { id := "s1", workload_id := "w1",
    attester := { workload_id := "s1", nonce := "w1", build := ⟨0⟩, chain := none,
                  session := none, session_verified := some ⟨7⟩ },
    status := .Authorized, expires_on := 10800 }

/-- The `key` request of the C5 failing input: the backend `secret()`
call fails, so `encrypt_secret` returns `Err(SevSecret)`. -/
def c5Key : KeyEvent :=
  { cookie := some "s1", secret_fetch := some [1, 2],
    oracle := ⟨fun _ => none⟩, now := 0 }

/-- The expired, not-yet-authorized session of the C6 counterexample. -/
def c6Session : Session :=
  { id := "s1", workload_id := "w1",
    attester := { workload_id := "s1", nonce := "w1", build := ⟨0⟩, chain := none,
                  session := some ⟨1⟩, session_verified := none },
    status := .Unauthorized, expires_on := 100 }

/-- The `attest` request of the C6 counterexample, arriving long after
the session's deadline. -/
def c6Att : AttestEvent :=
  { cookie := some "s1", attestation := ⟨some ⟨5⟩⟩,
    measurement_lookup := some "00",
    oracle := { measure := some ⟨6⟩, verify := some ⟨7⟩ }, now := 20000 }

/-- The expired but authorized session of the C6 witness. -/
def c6KeySession : Session :=
  { id := "s1", workload_id := "w1",
    attester := { workload_id := "s1", nonce := "w1", build := ⟨0⟩, chain := none,
                  session := none, session_verified := some ⟨7⟩ },
    status := .Authorized, expires_on := 100 }

/-- The session of the C7 failing input, holding an initialized SEV
attester. -/
def c7Session : Session :=
  { id := "s1", workload_id := "w1",
    attester := { workload_id := "s1", nonce := "w1", build := ⟨0⟩, chain := none,
                  session := some ⟨1⟩, session_verified := none },
    status := .Unauthorized, expires_on := 10800 }

/-- The `attest` request of the C7 failing input: the stored expected
launch measurement "zz" is not valid hex. -/
def c7Att : AttestEvent :=
  { cookie := some "s1", attestation := ⟨some ⟨5⟩⟩,
    measurement_lookup := some "zz",
    oracle := { measure := some ⟨6⟩, verify := some ⟨7⟩ }, now := 1 }

/-- The `auth` request of the C8 failing input: fresh session id "5e1f"
(the generated UUID), client workload id "w1". -/
def c8Auth : AuthEvent :=
  { session_id := "5e1f", workload_id := "w1", tee_is_sev := true,
    sev_request := some (⟨0⟩, ⟨3⟩), tee_config := none,
    oracle := { tryFrom := some ⟨1⟩, start := some ⟨2⟩ }, now := 0 }

/-- The `auth` request of the C10 witness. -/
def c10Auth : AuthEvent :=
  { session_id := "s1", workload_id := "w1", tee_is_sev := true,
    sev_request := some (⟨0⟩, ⟨3⟩), tee_config := none,
    oracle := { tryFrom := some ⟨1⟩, start := some ⟨2⟩ }, now := 0 }

/-- The session `auth` inserts for the C10 witness. -/
def c10Session : Session :=
  { id := "s1", workload_id := "w1",
    attester := { workload_id := "s1", nonce := "w1", build := ⟨0⟩, chain := none,
                  session := some ⟨1⟩, session_verified := none },
    status := .Unauthorized, expires_on := 10800 }

theorem run_append (st : SysState) (t1 t2 : List Event) :
    run st (t1 ++ t2) = run (run st t1) t2 := by
  induction t1 generalizing st with
  | nil => rfl
  | cons e tr ih => simp [run, ih]

/-! ### Attester state lemmas -/

theorem challenge_ok_chain_none {a : SevAttester} {o : ChallengeOracle}
    {c : Challenge} {a' : SevAttester} (h : a.challenge o = .ok c a') :
    a'.chain = none := by
  unfold SevAttester.challenge at h
  split at h
  · exact absurd h (by simp)
  · split at h
    · exact absurd h (by simp)
    · split at h
      · exact absurd h (by simp)
      · rw [ChallengeResult.ok.injEq] at h
        rw [← h.2]

theorem challenge_ok_sv {a : SevAttester} {o : ChallengeOracle}
    {c : Challenge} {a' : SevAttester} (h : a.challenge o = .ok c a') :
    a'.session_verified = a.session_verified := by
  unfold SevAttester.challenge at h
  split at h
  · exact absurd h (by simp)
  · split at h
    · exact absurd h (by simp)
    · split at h
      · exact absurd h (by simp)
      · rw [ChallengeResult.ok.injEq] at h
        rw [← h.2]

theorem challenge_chain_none_er (a : SevAttester) (o : ChallengeOracle)
    (h : a.chain = none) : ∃ e a', a.challenge o = .er e a' := by
  unfold SevAttester.challenge
  cases htf : o.tryFrom with
  | none => exact ⟨.SevPolicy, a, rfl⟩
  | some sess => rw [h]; exact ⟨.SevMissingChain, { a with chain := none }, rfl⟩

theorem attest_chain_eq {a : SevAttester} {att : Attestation} {lm : String}
    {o : AttestOracle} :
    (∀ a', a.attest att lm o = .ok a' → a'.chain = a.chain) ∧
      (∀ e a', a.attest att lm o = .er e a' → a'.chain = a.chain) := by
  unfold SevAttester.attest
  constructor
  · intro a' h
    split at h
    · exact absurd h (by simp)
    · split at h
      · exact absurd h (by simp)
      · split at h
        · exact absurd h (by simp)
        · split at h
          · exact absurd h (by simp)
          · split at h
            · exact absurd h (by simp)
            · rw [AttestResult.ok.injEq] at h
              rw [← h]
  · intro e a' h
    split at h
    · rw [AttestResult.er.injEq] at h
      rw [← h.2]
    · split at h
      · rw [AttestResult.er.injEq] at h
        rw [← h.2]
      · split at h
        · rw [AttestResult.er.injEq] at h
          rw [← h.2]
        · split at h
          · exact absurd h (by simp)
          · split at h
            · rw [AttestResult.er.injEq] at h
              rw [← h.2]
            · exact absurd h (by simp)

theorem attest_session_none (a : SevAttester) (att : Attestation) (lm : String)
    (o : AttestOracle) (h : a.session = none) :
    a.attest att lm o = .er .InvalidAttestation a ∨
      a.attest att lm o = .er .SevMissingSession a := by
  unfold SevAttester.attest
  cases hev : att.tee_evidence with
  | none => exact Or.inl rfl
  | some m => rw [h]; exact Or.inr rfl

theorem encrypt_secret_no_sv (a : SevAttester) (o : EncryptOracle)
    (p : List Nat) (h : a.session_verified = none) :
    a.encrypt_secret o p = .er .SevMissingVerified := by
  unfold SevAttester.encrypt_secret
  rw [h]

/-! ### Registry lemmas -/

theorem slookup_supdate (l : List (String × Session)) (sid : String) (s : Session)
    (sid' : String) :
    slookup (supdate l sid s) sid' =
      if sid' = sid then (slookup l sid).map (fun _ => s) else slookup l sid' := by
  induction l with
  | nil =>
    simp only [supdate, slookup, Option.map_none']
    split <;> rfl
  | cons kv rest ih =>
    obtain ⟨k, v⟩ := kv
    by_cases hk : k = sid
    · subst hk
      simp only [supdate, if_pos rfl, slookup]
      by_cases h' : k = sid'
      · subst h'
        simp [slookup]
      · have : ¬ sid' = k := fun hc => h' hc.symm
        simp [slookup, h', this]
    · simp only [supdate, if_neg hk, slookup]
      by_cases h' : k = sid'
      · subst h'
        simp [if_neg (fun hc : k = sid => hk hc)]
      · simp only [if_neg h', ih]

theorem keyStep_snd (st : SysState) (e : KeyEvent) : (keyStep st e).2 = st := by
  unfold keyStep
  split
  · rfl
  · split
    · rfl
    · split
      · rfl
      · split
        · rfl
        · split <;> rfl

/-- Where a session visible after `auth` comes from: either it was already
in the registry, or it is the freshly inserted one — unauthorized, its
attester the post-state of a successful `challenge`. -/
theorem authStep_lookup (st : SysState) (ae : AuthEvent) (sid : String) (s : Session)
    (h : slookup (authStep st ae).2.sessions sid = some s) :
    slookup st.sessions sid = some s ∨
      (s.status = SessionStatus.Unauthorized ∧
        ∃ (a : SevAttester) (o : ChallengeOracle) (c : Challenge),
          a.challenge o = .ok c s.attester) := by
  unfold authStep at h
  split at h
  · exact Or.inl h
  · split at h
    · exact Or.inl h
    · dsimp only at h
      split at h
      · exact Or.inl h
      · rename_i c attester' hch
        simp only [SysState.insert, Session.new, slookup] at h
        split at h
        · rw [Option.some.injEq] at h
          subst h
          exact Or.inr ⟨rfl, _, ae.oracle, _, hch⟩
        · exact Or.inl h

/-- Where a session visible after the `attest` handler comes from: either
the handler did not touch it, or it existed before with the same status
apart from a possible approval, and its attester is the post-state of an
`attest` call on the previous attester. -/
theorem attestStep_attester (st : SysState) (ae : AttestEvent) (sid : String) (s : Session)
    (h : slookup (attestStep st ae).2.sessions sid = some s) :
    slookup st.sessions sid = some s ∨
      ∃ (s' : Session) (lm : String), slookup st.sessions sid = some s' ∧
        (s'.attester.attest ae.attestation lm ae.oracle = .ok s.attester ∨
          ∃ e, s'.attester.attest ae.attestation lm ae.oracle = .er e s.attester) := by
  unfold attestStep at h
  split at h
  · exact Or.inl h
  · rename_i sid0 hck
    split at h
    · exact Or.inl h
    · rename_i s0 hl0
      split at h
      · exact Or.inl h
      · rename_i lm hlm
        split at h
        · exact Or.inl h
        · -- er branch
          rename_i e a' hat
          simp only at h
          rw [slookup_supdate] at h
          split at h
          · rename_i hsid
            subst hsid
            simp only [hl0, Option.map_some', Option.some.injEq] at h
            subst h
            exact Or.inr ⟨s0, lm, hl0, Or.inr ⟨e, hat⟩⟩
          · exact Or.inl h
        · -- ok branch
          rename_i a' hat
          simp only at h
          rw [slookup_supdate] at h
          split at h
          · rename_i hsid
            subst hsid
            simp only [hl0, Option.map_some', Option.some.injEq] at h
            subst h
            exact Or.inr ⟨s0, lm, hl0, Or.inl hat⟩
          · exact Or.inl h

/-- Status bookkeeping of the `attest` handler: a session that is
`Authorized` after the call was either already authorized, or the call is
the one that approved it — and then the handler returned success. -/
theorem attestStep_status (st : SysState) (ae : AttestEvent) (sid : String) (s : Session)
    (h : slookup (attestStep st ae).2.sessions sid = some s)
    (hs : s.status = SessionStatus.Authorized) :
    (∃ s', slookup st.sessions sid = some s' ∧ s'.status = SessionStatus.Authorized) ∨
      (ae.cookie = some sid ∧ (attestStep st ae).1 = Outcome.attestOk) := by
  unfold attestStep at h
  split at h
  · exact Or.inl ⟨s, h, hs⟩
  · rename_i sid0 hck
    split at h
    · exact Or.inl ⟨s, h, hs⟩
    · rename_i s0 hl0
      split at h
      · exact Or.inl ⟨s, h, hs⟩
      · rename_i lm hlm
        split at h
        · exact Or.inl ⟨s, h, hs⟩
        · -- er branch: status inherited from s0
          rename_i e a' hat
          simp only at h
          rw [slookup_supdate] at h
          split at h
          · rename_i hsid
            subst hsid
            simp only [hl0, Option.map_some', Option.some.injEq] at h
            subst h
            exact Or.inl ⟨s0, hl0, hs⟩
          · exact Or.inl ⟨s, h, hs⟩
        · -- ok branch: this call approved, and the handler returns attestOk
          rename_i a' hat
          simp only at h
          rw [slookup_supdate] at h
          split at h
          · rename_i hsid
            subst hsid
            refine Or.inr ⟨hck, ?_⟩
            simp [attestStep, hck, hl0, hlm, hat]
          · exact Or.inl ⟨s, h, hs⟩

/-- A challenged attester has given up its certificate chain: it is not in
the `Fresh` (pre-challenge) state, which holds `chain = some _`. -/
theorem Challenged.chain_none {a : SevAttester} (h : Challenged a) : a.chain = none := by
  induction h with
  | ofChallenge hch => exact challenge_ok_chain_none hch
  | ofAttestOk hc hat ih => rw [attest_chain_eq.1 _ hat]; exact ih
  | ofAttestEr hc hat ih => rw [attest_chain_eq.2 _ _ hat]; exact ih

/-- Every session the registry ever holds has an attester on which
`challenge()` returned success: `auth` inserts only after a successful
challenge, and later handlers only drive that attester further. -/
theorem registry_challenged (tr : List Event) (sid : String) (s : Session)
    (h : slookup (run initState tr).sessions sid = some s) :
    Challenged s.attester := by
  induction tr using List.reverseRecOn generalizing s with
  | nil => simp [run, initState, slookup] at h
  | append_singleton tr e ih =>
    rw [run_append] at h
    change slookup (step (run initState tr) e).2.sessions sid = some s at h
    cases e with
    | auth ae =>
      rcases authStep_lookup _ ae sid s h with h' | ⟨_, a, o, c, hch⟩
      · exact ih s h'
      · exact Challenged.ofChallenge hch
    | attest ae =>
      rcases attestStep_attester _ ae sid s h with h' | ⟨s', lm, hl, hok | ⟨e, her⟩⟩
      · exact ih s h'
      · exact Challenged.ofAttestOk (ih s' hl) hok
      · exact Challenged.ofAttestEr (ih s' hl) her
    | key ke =>
      simp only [step] at h
      rw [keyStep_snd] at h
      exact ih s h

/-- A session is `Authorized` only if some earlier `attest` request on its
cookie returned success. -/
theorem authorized_has_prior_attest (tr : List Event) (sid : String) (s : Session)
    (h : slookup (run initState tr).sessions sid = some s)
    (hs : s.status = SessionStatus.Authorized) :
    ∃ t1 ev t2, tr = t1 ++ ev :: t2 ∧ AttestOkAt (run initState t1) ev sid := by
  induction tr using List.reverseRecOn generalizing s with
  | nil => simp [run, initState, slookup] at h
  | append_singleton tr e ih =>
    rw [run_append] at h
    change slookup (step (run initState tr) e).2.sessions sid = some s at h
    cases e with
    | auth ae =>
      rcases authStep_lookup _ ae sid s h with h' | ⟨hst, _⟩
      · obtain ⟨t1, ev, t2, htr, hat⟩ := ih s h' hs
        exact ⟨t1, ev, t2 ++ [Event.auth ae], by rw [htr]; simp, hat⟩
      · rw [hs] at hst
        exact absurd hst (by simp)
    | attest ae =>
      rcases attestStep_status _ ae sid s h hs with ⟨s', hl, hs'⟩ | ⟨hc, hok⟩
      · obtain ⟨t1, ev, t2, htr, hat⟩ := ih s' hl hs'
        exact ⟨t1, ev, t2 ++ [Event.attest ae], by rw [htr]; simp, hat⟩
      · exact ⟨tr, Event.attest ae, [], rfl, ae, rfl, hc, hok⟩
    | key ke =>
      simp only [step] at h
      rw [keyStep_snd] at h
      obtain ⟨t1, ev, t2, htr, hat⟩ := ih s h hs
      exact ⟨t1, ev, t2 ++ [Event.key ke], by rw [htr]; simp, hat⟩

/-- `Session.is_valid` unfolded to its two conditions. -/
theorem is_valid_iff (s : Session) (now : Nat) :
    s.is_valid now = true ↔
      (s.status = SessionStatus.Authorized ∧ now < s.expires_on) := by
  simp [Session.is_valid]

/-- The `attest` handler changes no session's status unless it returns
success. -/
theorem attestStep_not_ok_status (st : SysState) (ae : AttestEvent) (sid : String)
    (h : (attestStep st ae).1 ≠ Outcome.attestOk) :
    (slookup (attestStep st ae).2.sessions sid).map Session.status =
      (slookup st.sessions sid).map Session.status := by
  unfold attestStep at h ⊢
  split
  · rfl
  · rename_i sid0 hck
    split
    · rfl
    · rename_i s0 hl0
      split
      · rfl
      · rename_i lm hlm
        split
        · rfl
        · -- er branch: attester replaced, status untouched
          rename_i e a' hat
          simp only
          rw [slookup_supdate]
          split
          · rename_i hsid
            subst hsid
            rw [hl0, Option.map_some', Option.map_some', Option.map_some']
          · rfl
        · -- ok branch: excluded by the hypothesis
          rename_i a' hat
          exact absurd (by simp only [hck, hl0, hlm, hat]) h

/-! ### Claim C1 -/

/-- C1 (amended): on a verified SEV attester, a plaintext of at most 512
bytes is handed to the SEV session's `secret()` call right-padded with
zero bytes to exactly 512 bytes (hence at least 512), and the packet is
returned on success; a plaintext longer than 4096 bytes is rejected with
`SevSecretTooLong` (`InputTooLarge`); but for 512 < len ≤ 4096 the
padding length `512 - len` underflows `usize` and the code panics
instead of succeeding. -/
theorem C1_encrypt_secret_padding (a : SevAttester) (vs : VerifiedSession)
    (o : EncryptOracle) (p : List Nat) (hv : a.session_verified = some vs) :
    (p.length ≤ 512 →
      (p ++ List.replicate (512 - p.length) 0).length = 512 ∧
      (∀ pkt, o.secret (p ++ List.replicate (512 - p.length) 0) = some pkt →
        a.encrypt_secret o p = .ok (p ++ List.replicate (512 - p.length) 0) pkt) ∧
      (o.secret (p ++ List.replicate (512 - p.length) 0) = none →
        a.encrypt_secret o p = .er .SevSecret))
    ∧ (512 < p.length → p.length ≤ 4096 → a.encrypt_secret o p = .panic)
    ∧ (4096 < p.length → a.encrypt_secret o p = .er .SevSecretTooLong) := by
  refine ⟨?_, ?_, ?_⟩
  · intro hle
    have h1 : ¬ p.length > 4096 := by omega
    have h2 : ¬ p.length > 512 := by omega
    refine ⟨by simp; omega, ?_, ?_⟩
    · intro pkt hsec
      simp only [SevAttester.encrypt_secret, hv, if_neg h1, if_neg h2, hsec]
    · intro hsec
      simp only [SevAttester.encrypt_secret, hv, if_neg h1, if_neg h2, hsec]
  · intro hgt hle
    have h1 : ¬ p.length > 4096 := by omega
    have h2 : p.length > 512 := hgt
    simp only [SevAttester.encrypt_secret, hv, if_neg h1, if_pos h2]
  · intro hgt
    simp only [SevAttester.encrypt_secret, hv, if_pos hgt]

set_option maxRecDepth 4000 in
/-- C1 counterexample: on a verified SEV attester a plaintext of 513
bytes — inside the range 512 < len ≤ 4096 the claim asserts to succeed —
makes `encrypt_secret` hit the `usize` underflow in
`vec![0; 512 - plain_secret.len()]` and panic. -/
theorem C1_counterexample :
    SevAttester.encrypt_secret
      { workload_id := "s1", nonce := "w1", build := ⟨0⟩, chain := none,
        session := none, session_verified := some ⟨7⟩ }
      ⟨fun _ => some ⟨9⟩⟩ (List.replicate 513 1) = EncryptResult.panic := by
  decide

/-- C1 witness: a 3-byte plaintext is padded to exactly 512 bytes and
encrypted successfully. -/
theorem C1_witness :
    SevAttester.encrypt_secret
      { workload_id := "s1", nonce := "w1", build := ⟨0⟩, chain := none,
        session := none, session_verified := some ⟨7⟩ }
      ⟨fun _ => some ⟨9⟩⟩ [1, 2, 3] =
      EncryptResult.ok ([1, 2, 3] ++ List.replicate 509 0) ⟨9⟩ :=
  ((C1_encrypt_secret_padding
    { workload_id := "s1", nonce := "w1", build := ⟨0⟩, chain := none,
      session := none, session_verified := some ⟨7⟩ }
    ⟨7⟩ ⟨fun _ => some ⟨9⟩⟩ [1, 2, 3] rfl).1 (by decide)).2.1 ⟨9⟩ rfl

/-! ### Claim C3 -/

/-- C3: out-of-order operations on a single SEV attester error out:
`encrypt_secret` errors whenever no verified session is present (which
holds for a fresh attester and is preserved by `challenge`, i.e. before
any successful `attest`); `attest` errors whenever no initialized
session is present (which holds for a fresh attester, i.e. before
`challenge`); and after a successful `challenge` a second `challenge`
call errors. -/
theorem C3_out_of_order_errors :
    (∀ (a : SevAttester) (o : EncryptOracle) (p : List Nat),
        a.session_verified = none → a.encrypt_secret o p = .er .SevMissingVerified)
    ∧ (∀ (w n : String) (b : Build) (ch : Chain),
        (SevAttester.new w n b ch).session_verified = none ∧
          (SevAttester.new w n b ch).session = none)
    ∧ (∀ (a : SevAttester) (o : ChallengeOracle) (c : Challenge) (a' : SevAttester),
        a.challenge o = .ok c a' → a'.session_verified = a.session_verified)
    ∧ (∀ (a : SevAttester) (att : Attestation) (lm : String) (o : AttestOracle),
        a.session = none →
        a.attest att lm o = .er .InvalidAttestation a ∨
          a.attest att lm o = .er .SevMissingSession a)
    ∧ (∀ (a : SevAttester) (o : ChallengeOracle) (c : Challenge) (a' : SevAttester)
        (o2 : ChallengeOracle), a.challenge o = .ok c a' →
        ∃ e a'', a'.challenge o2 = .er e a'') :=
  ⟨encrypt_secret_no_sv,
   fun _ _ _ _ => ⟨rfl, rfl⟩,
   fun _ _ _ _ h => challenge_ok_sv h,
   attest_session_none,
   fun _ _ _ a' o2 h => challenge_chain_none_er a' o2 (challenge_ok_chain_none h)⟩

/-- C3 witness: a fresh attester rejects `encrypt_secret` and `attest`,
and after one successful `challenge` the second `challenge` fails with
`SevMissingChain`. -/
theorem C3_witness :
    (SevAttester.new "s1" "w1" ⟨0⟩ ⟨3⟩).encrypt_secret ⟨fun _ => some ⟨9⟩⟩ [1] =
        EncryptResult.er .SevMissingVerified
    ∧ ((SevAttester.new "s1" "w1" ⟨0⟩ ⟨3⟩).attest ⟨some ⟨5⟩⟩ "00"
          { measure := some ⟨6⟩, verify := some ⟨7⟩ } =
            .er .InvalidAttestation (SevAttester.new "s1" "w1" ⟨0⟩ ⟨3⟩) ∨
        (SevAttester.new "s1" "w1" ⟨0⟩ ⟨3⟩).attest ⟨some ⟨5⟩⟩ "00"
          { measure := some ⟨6⟩, verify := some ⟨7⟩ } =
            .er .SevMissingSession (SevAttester.new "s1" "w1" ⟨0⟩ ⟨3⟩))
    ∧ (∃ e a'',
        SevAttester.challenge
          { workload_id := "s1", nonce := "w1", build := ⟨0⟩, chain := none,
            session := some ⟨1⟩, session_verified := none }
          { tryFrom := some ⟨1⟩, start := some ⟨2⟩ } = .er e a'') :=
  ⟨C3_out_of_order_errors.1 (SevAttester.new "s1" "w1" ⟨0⟩ ⟨3⟩) ⟨fun _ => some ⟨9⟩⟩ [1] rfl,
   C3_out_of_order_errors.2.2.2.1 (SevAttester.new "s1" "w1" ⟨0⟩ ⟨3⟩) ⟨some ⟨5⟩⟩ "00"
     { measure := some ⟨6⟩, verify := some ⟨7⟩ } rfl,
   C3_out_of_order_errors.2.2.2.2 (SevAttester.new "s1" "w1" ⟨0⟩ ⟨3⟩)
     { tryFrom := some ⟨1⟩, start := some ⟨2⟩ }
     { nonce := "w1", extra_params := { id := "w1", start := ⟨2⟩ } }
     { workload_id := "s1", nonce := "w1", build := ⟨0⟩, chain := none,
       session := some ⟨1⟩, session_verified := none }
     { tryFrom := some ⟨1⟩, start := some ⟨2⟩ } rfl⟩

/-! ### Claim C2 -/

/-- C2: over any run of the handlers from the empty registry, a `key`
request returns a sealed packet only if an earlier `attest` request on
the same session cookie returned success; and `key` answers
401 "Invalid session" whenever the resolved session's status is not
`Authorized` (only a successful `attest` can make it `Authorized`). -/
theorem C2_key_requires_prior_attest :
    (∀ (tr : List Event) (ke : KeyEvent) (pkt : SecretPacket),
        (keyStep (run initState tr) ke).1 = Outcome.keyOk pkt →
        ∃ sid, ke.cookie = some sid ∧
          ∃ t1 ev t2, tr = t1 ++ ev :: t2 ∧ AttestOkAt (run initState t1) ev sid)
    ∧ (∀ (st : SysState) (ke : KeyEvent) (sid : String) (s : Session),
        ke.cookie = some sid → slookup st.sessions sid = some s →
        s.status ≠ SessionStatus.Authorized →
        (keyStep st ke).1 = Outcome.unauthorized "Invalid session") := by
  constructor
  · intro tr ke pkt h
    unfold keyStep at h
    split at h
    · exact absurd h (by simp)
    · rename_i sid hck
      split at h
      · exact absurd h (by simp)
      · rename_i s hl
        split at h
        · exact absurd h (by simp)
        · rename_i hval
          have hst : s.status = SessionStatus.Authorized :=
            ((is_valid_iff s ke.now).mp (not_not.mp hval)).1
          exact ⟨sid, hck, authorized_has_prior_attest tr sid s hl hst⟩
  · intro st ke sid s hck hl hst
    have hnv : ¬ (s.is_valid ke.now = true) := fun hv =>
      hst ((is_valid_iff s ke.now).mp hv).1
    simp only [keyStep, hck, hl, if_pos hnv]

/-- C2 witness: on the happy-path trace `auth; attest` the `key` request
returns a sealed packet, and some earlier `attest` on the cookie
succeeded. -/
theorem C2_witness :
    (keyStep (run initState [Event.auth c2Auth, Event.attest c2Att]) c2Key).1 =
        Outcome.keyOk ⟨9⟩ ∧
      ∃ sid, c2Key.cookie = some sid ∧
        ∃ t1 ev t2, [Event.auth c2Auth, Event.attest c2Att] = t1 ++ ev :: t2 ∧
          AttestOkAt (run initState t1) ev sid :=
  ⟨by decide, C2_key_requires_prior_attest.1 _ c2Key ⟨9⟩ (by decide)⟩

/-! ### Claim C4 -/

/-- C4 (amended): a failing `attest` never approves the enclosing session
(the handler changes no status unless it returns success); an
evidence-parse failure leaves the attester unchanged, still holding its
initialized session, so a retry is possible; but a `measure()` failure or
a measurement-verification failure consumes the initialized session
(`self.session.take()`) and leaves `session = none` — not the
`Initialized` state. -/
theorem C4_attest_failure_states (a : SevAttester) (s0 : InitSession)
    (att : Attestation) (lm : String) (o : AttestOracle)
    (hs : a.session = some s0) :
    (att.tee_evidence = none → a.attest att lm o = .er .InvalidAttestation a)
    ∧ (∀ m, att.tee_evidence = some m → o.measure = none →
        a.attest att lm o = .er .SevSessionMeasure { a with session := none })
    ∧ (∀ m ms dl, att.tee_evidence = some m → o.measure = some ms →
        hexDecode lm = some dl → o.verify = none →
        a.attest att lm o = .er .InvalidMeasurement { a with session := none })
    ∧ (∀ (st : SysState) (ae : AttestEvent) (sid : String),
        (attestStep st ae).1 ≠ Outcome.attestOk →
        (slookup (attestStep st ae).2.sessions sid).map Session.status =
          (slookup st.sessions sid).map Session.status) := by
  refine ⟨?_, ?_, ?_, fun st ae sid h => attestStep_not_ok_status st ae sid h⟩
  · intro hev
    simp only [SevAttester.attest, hev]
  · intro m hev hm
    simp only [SevAttester.attest, hev, hs, hm]
  · intro m ms dl hev hm hx hv
    simp only [SevAttester.attest, hev, hs, hm, hx, hv]

/-- C4 counterexample: on an attester in `Initialized` state, a failing
measurement verification returns an error whose post-state has
`session = none` — the attester is not left in `Initialized`, and the
retry `attest` on it fails with `SevMissingSession`. -/
theorem C4_counterexample :
    (SevAttester.attest
        { workload_id := "s1", nonce := "w1", build := ⟨0⟩, chain := none,
          session := some ⟨1⟩, session_verified := none }
        ⟨some ⟨5⟩⟩ "00" { measure := some ⟨6⟩, verify := none } =
      AttestResult.er .InvalidMeasurement
        { workload_id := "s1", nonce := "w1", build := ⟨0⟩, chain := none,
          session := none, session_verified := none })
    ∧ (SevAttester.attest
        { workload_id := "s1", nonce := "w1", build := ⟨0⟩, chain := none,
          session := none, session_verified := none }
        ⟨some ⟨5⟩⟩ "00" { measure := some ⟨6⟩, verify := none } =
      AttestResult.er .SevMissingSession
        { workload_id := "s1", nonce := "w1", build := ⟨0⟩, chain := none,
          session := none, session_verified := none }) := by
  decide

/-- C4 witness: parse failure leaves the initialized session in place;
measure failure consumes it. -/
theorem C4_witness :
    (SevAttester.attest
        { workload_id := "s1", nonce := "w1", build := ⟨0⟩, chain := none,
          session := some ⟨1⟩, session_verified := none }
        ⟨none⟩ "00" { measure := some ⟨6⟩, verify := some ⟨7⟩ } =
      AttestResult.er .InvalidAttestation
        { workload_id := "s1", nonce := "w1", build := ⟨0⟩, chain := none,
          session := some ⟨1⟩, session_verified := none })
    ∧ (SevAttester.attest
        { workload_id := "s1", nonce := "w1", build := ⟨0⟩, chain := none,
          session := some ⟨1⟩, session_verified := none }
        ⟨some ⟨5⟩⟩ "00" { measure := none, verify := none } =
      AttestResult.er .SevSessionMeasure
        { workload_id := "s1", nonce := "w1", build := ⟨0⟩, chain := none,
          session := none, session_verified := none }) :=
  ⟨(C4_attest_failure_states
      { workload_id := "s1", nonce := "w1", build := ⟨0⟩, chain := none,
        session := some ⟨1⟩, session_verified := none }
      ⟨1⟩ ⟨none⟩ "00" { measure := some ⟨6⟩, verify := some ⟨7⟩ } rfl).1 rfl,
   (C4_attest_failure_states
      { workload_id := "s1", nonce := "w1", build := ⟨0⟩, chain := none,
        session := some ⟨1⟩, session_verified := none }
      ⟨1⟩ ⟨some ⟨5⟩⟩ "00" { measure := none, verify := none } rfl).2.1 ⟨5⟩ rfl rfl⟩

/-! ### Claim C5 -/

/-- C5 (what the code does): on a `key` request whose session is valid
(`Authorized`, unexpired), if `attester.encrypt_secret` returns any
error, the handler's `.unwrap()` panics instead of answering 401 with
the backend message; and a secret longer than 4096 bytes does make
`encrypt_secret` return `SevSecretTooLong` (`InputTooLarge`). -/
theorem C5_key_panics_on_encrypt_error :
    (∀ (st : SysState) (ke : KeyEvent) (sid : String) (s : Session)
        (bytes : List Nat) (e : AttesterError),
        ke.cookie = some sid → slookup st.sessions sid = some s →
        s.is_valid ke.now = true → ke.secret_fetch = some bytes →
        s.attester.encrypt_secret ke.oracle bytes = .er e →
        (keyStep st ke).1 = Outcome.panic)
    ∧ (∀ (a : SevAttester) (vs : VerifiedSession) (o : EncryptOracle) (p : List Nat),
        a.session_verified = some vs → 4096 < p.length →
        a.encrypt_secret o p = .er .SevSecretTooLong) := by
  constructor
  · intro st ke sid s bytes e hck hl hv hf he
    simp only [keyStep, hck, hl, if_neg (not_not.mpr hv), hf, he]
  · intro a vs o p hv hgt
    simp only [SevAttester.encrypt_secret, hv, if_pos hgt]

/-- C5 witness: at the failing input the handler panics (it does not
return a 401). -/
theorem C5_witness :
    (keyStep { sessions := [("s1", c5Session)] } c5Key).1 = Outcome.panic :=
  C5_key_panics_on_encrypt_error.1 { sessions := [("s1", c5Session)] } c5Key
    "s1" c5Session [1, 2] .SevSecret rfl rfl (by decide) rfl rfl

/-! ### Claim C6 -/

/-- C6 (amended): a session whose deadline has passed
(`expires_on ≤ now`) is rejected by the `key` handler regardless of its
status (`is_valid` demands `now < expires_on`); the `attest` handler,
however, performs no expiry check at all: it processes the request —
and approves the session — whenever cookie, measurement lookup and
attester verification succeed, no matter the session's deadline. -/
theorem C6_expiry_checks :
    (∀ (st : SysState) (ke : KeyEvent) (sid : String) (s : Session),
        ke.cookie = some sid → slookup st.sessions sid = some s →
        s.expires_on ≤ ke.now →
        (keyStep st ke).1 = Outcome.unauthorized "Invalid session")
    ∧ (∀ (st : SysState) (ae : AttestEvent) (sid : String) (s : Session)
        (lm : String) (a' : SevAttester),
        ae.cookie = some sid → slookup st.sessions sid = some s →
        ae.measurement_lookup = some lm →
        s.attester.attest ae.attestation lm ae.oracle = .ok a' →
        (attestStep st ae).1 = Outcome.attestOk) := by
  constructor
  · intro st ke sid s hck hl hexp
    have hnv : ¬ (s.is_valid ke.now = true) := fun hv => by
      have h2 := ((is_valid_iff s ke.now).mp hv).2
      omega
    simp only [keyStep, hck, hl, if_pos hnv]
  · intro st ae sid s lm a' hck hl hlm hat
    simp only [attestStep, hck, hl, hlm, hat]

/-- C6 counterexample: the `attest` handler accepts (and approves) a
session whose deadline has long passed, refuting "both the key handler
and the attest handler reject such a session". -/
theorem C6_counterexample :
    c6Session.expires_on ≤ c6Att.now ∧
      (attestStep { sessions := [("s1", c6Session)] } c6Att).1 =
        Outcome.attestOk := by
  decide

/-- C6 witness: the `key` handler rejects the expired session even though
it is `Authorized`. -/
theorem C6_witness :
    (keyStep { sessions := [("s1", c6KeySession)] }
        { cookie := some "s1", secret_fetch := some [1, 2],
          oracle := ⟨fun _ => some ⟨9⟩⟩, now := 200 }).1 =
      Outcome.unauthorized "Invalid session" :=
  C6_expiry_checks.1 { sessions := [("s1", c6KeySession)] }
    { cookie := some "s1", secret_fetch := some [1, 2],
      oracle := ⟨fun _ => some ⟨9⟩⟩, now := 200 }
    "s1" c6KeySession rfl rfl (by decide)

/-! ### Claim C7 -/

/-- C7 (what the code does): when the stored expected launch measurement
is not a valid hex string ("zz" here, and "abc" of odd length likewise),
`hex::decode(...).unwrap()` in `SevAttester::attest` panics, so the
`attest` handler panics instead of returning a 400 verification-failure
error. -/
theorem C7_attest_panics_on_bad_hex :
    hexDecode "zz" = none ∧ hexDecode "abc" = none ∧
      (SevAttester.attest
          { workload_id := "s1", nonce := "w1", build := ⟨0⟩, chain := none,
            session := some ⟨1⟩, session_verified := none }
          ⟨some ⟨5⟩⟩ "zz" { measure := some ⟨6⟩, verify := some ⟨7⟩ } =
        AttestResult.panic) ∧
      (attestStep { sessions := [("s1", c7Session)] } c7Att).1 = Outcome.panic := by
  decide

/-! ### Claim C8 -/

/-- C8 (what the code does): the cookie is the fresh session id "5e1f",
but the returned challenge's nonce is the client-supplied workload id
"w1" — the call site passes `(session_id, workload_id)` into
`SevAttester::new(workload_id, nonce, ...)`, so the session id lands in
the unused `_workload_id` field and the workload id becomes the nonce.
The `extra_params` id does equal the nonce, as the claim says. -/
theorem C8_nonce_is_workload_id :
    (authStep initState c8Auth).1 =
        Outcome.authOk
          { nonce := "w1", extra_params := { id := "w1", start := ⟨2⟩ } } "5e1f" ∧
      "w1" ≠ "5e1f" := by
  decide

/-! ### Claim C9 -/

/-- C9: `POST /secret-store/update` with an empty `url` or an empty
`token` answers `{status: "error", reason}` and leaves the stored
configuration unchanged, so a subsequent `GET /secret-store/get` returns
the previous `{url, token}`; when the url alone is empty the reason is
"url cannot be empty". -/
theorem C9_reject_empty_admin_fields (store current : SecretStore)
    (h : store.url = "" ∨ store.token = "") :
    (∃ r, (register_secret_store store current).1 = .errorReason r)
    ∧ (register_secret_store store current).2 = current
    ∧ get_secret_store (register_secret_store store current).2 =
        get_secret_store current
    ∧ (store.url = "" → store.token ≠ "" →
        (register_secret_store store current).1 =
          .errorReason "url cannot be empty") := by
  by_cases ht : store.token = ""
  · have h2 : (register_secret_store store current).2 = current := by
      simp only [register_secret_store, SecretStore.validate, if_pos ht]
    refine ⟨⟨"token cannot be empty", ?_⟩, h2, by rw [h2], ?_⟩
    · simp only [register_secret_store, SecretStore.validate, if_pos ht]
    · intro _ ht'
      exact absurd ht ht'
  · have hu : store.url = "" := h.resolve_right ht
    have h2 : (register_secret_store store current).2 = current := by
      simp only [register_secret_store, SecretStore.validate, if_neg ht, if_pos hu]
    refine ⟨⟨"url cannot be empty", ?_⟩, h2, by rw [h2], fun _ _ => ?_⟩ <;>
      simp only [register_secret_store, SecretStore.validate, if_neg ht, if_pos hu]

/-- C9 witness: updating with an empty url and non-empty token is
rejected with reason "url cannot be empty" and the previous
configuration survives. -/
theorem C9_witness :
    (∃ r, (register_secret_store ⟨"", "t"⟩ ⟨"http://v:8200", "myroot"⟩).1 =
        .errorReason r)
    ∧ (register_secret_store ⟨"", "t"⟩ ⟨"http://v:8200", "myroot"⟩).2 =
        ⟨"http://v:8200", "myroot"⟩
    ∧ get_secret_store (register_secret_store ⟨"", "t"⟩
        ⟨"http://v:8200", "myroot"⟩).2 =
        get_secret_store ⟨"http://v:8200", "myroot"⟩
    ∧ ((⟨"", "t"⟩ : SecretStore).url = "" → (⟨"", "t"⟩ : SecretStore).token ≠ "" →
        (register_secret_store ⟨"", "t"⟩ ⟨"http://v:8200", "myroot"⟩).1 =
          .errorReason "url cannot be empty") :=
  C9_reject_empty_admin_fields ⟨"", "t"⟩ ⟨"http://v:8200", "myroot"⟩
    (Or.inl rfl)

/-! ### Claim C10 -/

/-- C10: every session reachable through the registry, after any run of
the handlers, holds an attester on which `challenge()` has already
returned success (`Challenged`); in particular none holds a `Fresh`
pre-challenge attester, whose certificate chain would still be present. -/
theorem C10_registry_only_challenged (tr : List Event) (sid : String) (s : Session)
    (h : slookup (run initState tr).sessions sid = some s) :
    Challenged s.attester ∧ s.attester.chain = none :=
  ⟨registry_challenged tr sid s h, (registry_challenged tr sid s h).chain_none⟩

/-- C10 witness: after one successful `auth`, the registered session's
attester is challenged and has given up its chain. -/
theorem C10_witness :
    slookup (run initState [Event.auth c10Auth]).sessions "s1" = some c10Session ∧
      (Challenged c10Session.attester ∧ c10Session.attester.chain = none) :=
  ⟨by decide,
   C10_registry_only_challenged [Event.auth c10Auth] "s1" c10Session (by decide)⟩
